import Mathlib

/-!
# Verification of the job-monitor enrichment and matching pipeline

Shallow embedding of the core of the `job-monitor` repository:
`employment_type_parser.py`, `location_parser.py`, `filter.py`, and the
`enrich` step of `main.py`, together with theorems settling the frozen
claims about them.

Conventions of the embedding:
* Python `str` is Lean `String`; text matching works on `List Char`
  (Python string indices are code-point indices, as are ours).
* Python `None`-able values are `Option`; a dict field that may be absent
  or `None` is modelled as `Option` with `none` for both.
* Character classes are modelled over the alphabet this program actually
  uses: Python `str.lower`, `\s`, `\w` and the explicit regex class
  `[a-zåäöA-ZÅÄÖ]` are reproduced for ASCII plus the Swedish letters
  å/ä/ö; this is exact on every string the program manipulates.
-/

namespace JobMonitor

/-! ## Character-level primitives -/

/-- Python `str.lower` on the alphabet used by this codebase:
ASCII `A`-`Z` plus the Swedish capitals `Å`, `Ä`, `Ö`. -/
def lowerChar (c : Char) : Char :=
  if 'A' ≤ c ∧ c ≤ 'Z' then Char.ofNat (c.toNat + 32)
  else if c = 'Å' then 'å'
  else if c = 'Ä' then 'ä'
  else if c = 'Ö' then 'ö'
  else c

/-- Python `str.lower` of a whole string. -/
def strLower (s : String) : String := ⟨s.data.map lowerChar⟩

/-- Python whitespace (`str.strip`, regex `\s`): the six ASCII whitespace
characters. -/
def isPyWs (c : Char) : Bool :=
  c = ' ' ∨ c = '\t' ∨ c = '\n' ∨ c = '\r' ∨ c = '\x0b' ∨ c = '\x0c'

/-- Python `str.strip()`. -/
def pyStrip (s : String) : String :=
  ⟨((s.data.dropWhile isPyWs).reverse.dropWhile isPyWs).reverse⟩

/-- The regex character class `[a-zåäöA-ZÅÄÖ]` used by the lookaround
word boundaries in `employment_type_parser.py` and `location_parser.py`. -/
def isSwLetter (c : Char) : Bool :=
  ('a' ≤ c ∧ c ≤ 'z') ∨ ('A' ≤ c ∧ c ≤ 'Z') ∨
    c = 'å' ∨ c = 'ä' ∨ c = 'ö' ∨ c = 'Å' ∨ c = 'Ä' ∨ c = 'Ö'

/-- Regex `\w` (word character) over the alphabet of this program: ASCII
alphanumerics, underscore, and the Swedish letters. -/
def isWordChar (c : Char) : Bool :=
  ('a' ≤ c ∧ c ≤ 'z') ∨ ('A' ≤ c ∧ c ≤ 'Z') ∨ ('0' ≤ c ∧ c ≤ '9') ∨
    c = '_' ∨ c = 'å' ∨ c = 'ä' ∨ c = 'ö' ∨ c = 'Å' ∨ c = 'Ä' ∨ c = 'Ö'

/-! ## Lookaround whole-word search

`employment_type_parser._has_keyword` and `location_parser.parse_location`
both search for a literal keyword with the lookaround boundaries
`(?<![a-zåäöA-ZÅÄÖ])kw(?![a-zåäöA-ZÅÄÖ])`.  `re.search` returns the
leftmost occurrence; we model it as the least matching start index. -/

/-- Literal prefix match: if `text` starts with `ks`, return the remaining
suffix of `text`, else `none`. -/
def litMatch : List Char → List Char → Option (List Char)
  | [], t => some t
  | _ :: _, [] => none
  | k :: ks, c :: t => if k = c then litMatch ks t else none

/-- Negative lookbehind `(?<![a-zåäöA-ZÅÄÖ])`: the previous character, if
any, is not a letter. -/
def swBefore (prev : Option Char) : Bool :=
  match prev with
  | none => true
  | some c => !isSwLetter c

/-- Negative lookahead `(?![a-zåäöA-ZÅÄÖ])`: the next character, if any,
is not a letter. -/
def swAfter : List Char → Bool
  | [] => true
  | c :: _ => !isSwLetter c

/-- The pattern `kw(?![a-zåäöA-ZÅÄÖ])` matches at the start of `text`. -/
def swWholeAt (ks text : List Char) : Bool :=
  match litMatch ks text with
  | some rest => swAfter rest
  | none => false

/-- Scan for the leftmost lookaround-delimited occurrence of `ks`,
tracking the previous character and the current index. -/
def findSwWordAux (ks : List Char) : Option Char → Nat → List Char → Option Nat
  | prev, i, [] =>
    if swBefore prev && swWholeAt ks [] then some i else none
  | prev, i, c :: t =>
    if swBefore prev && swWholeAt ks (c :: t) then some i
    else findSwWordAux ks (some c) (i + 1) t

/-- `re.search` of the lookaround pattern: index of the leftmost match. -/
def findSwWord (ks text : List Char) : Option Nat :=
  findSwWordAux ks none 0 text

/-- `_has_keyword` of `employment_type_parser.py` for one keyword:
whole-word occurrence with Swedish-letter lookaround boundaries. -/
def swHasWord (kw text : String) : Bool :=
  (findSwWord kw.data text.data).isSome

/-! ## Employment-type parser (`employment_type_parser.py`) -/

/-- `_INTERIM_KEYWORDS`. -/
def INTERIM_KEYWORDS : List String :=
  ["interim", "fractional", "konsult", "uppdrag", "deltid",
   "konsultuppdrag", "interimschef"]

/-- `_PERMANENT_KEYWORDS`. -/
def PERMANENT_KEYWORDS : List String :=
  ["tillsvidare", "fast tjänst", "permanent", "heltid",
   "tillsvidareanställning", "fast anställning"]

/-- `_has_keyword(text, keywords)`: some keyword occurs as a whole word. -/
def hasKeyword (text : String) (keywords : List String) : Bool :=
  keywords.any fun kw => swHasWord kw text

/-- The interim-like tokens of the structured API hint vocabulary. -/
def interimHintTokens : List String :=
  ["interim", "konsult", "consultant", "temporary", "visstid"]

/-- The permanent-like tokens of the structured API hint vocabulary. -/
def permanentHintTokens : List String :=
  ["permanent", "tillsvidare", "full-time", "heltid"]

/-- Step 1 of `parse_employment_type`: the structured API value.  Returns
`some` classification when the hint is truthy (non-`None`, non-empty) and
its trimmed lowercase form is in one of the two vocabularies; `none`
means the parser falls through to text analysis. -/
def hintClass (api_employment_type : Option String) : Option String :=
  match api_employment_type with
  | none => none
  | some h =>
    if h = "" then none
    else
      let normalized := strLower (pyStrip h)
      if interimHintTokens.contains normalized then some "interim"
      else if permanentHintTokens.contains normalized then some "permanent"
      else none

/-- `parse_employment_type(title, description, api_employment_type=...)`. -/
def parse_employment_type (title : String) (description : Option String)
    (api_employment_type : Option String) : Option String :=
  match hintClass api_employment_type with
  | some r => some r
  | none =>
    let text := strLower (title ++ " " ++ description.getD "")
    let is_interim := hasKeyword text INTERIM_KEYWORDS
    let is_permanent := hasKeyword text PERMANENT_KEYWORDS
    if is_interim && is_permanent then
      let title_lower := strLower title
      if hasKeyword title_lower INTERIM_KEYWORDS then some "interim"
      else if hasKeyword title_lower PERMANENT_KEYWORDS then some "permanent"
      else none
    else if is_interim then some "interim"
    else if is_permanent then some "permanent"
    else none

/-! ## Keyword matcher (`filter.py`)

`_word_re(keyword)` compiles `rf"\b{pattern}\b"` with `re.IGNORECASE`,
where each space of the keyword becomes `\s+`.  We model the compiled
regex directly: a case-insensitive literal match of the space-separated
parts of the keyword, one-or-more whitespace between parts, `\b` word
boundaries at both ends.  Parts begin with non-whitespace characters, so
greedy whitespace consumption is equivalent to the backtracking regex. -/

/-- Wordness of an optional character; out-of-range counts as non-word. -/
def optWord : Option Char → Bool
  | none => false
  | some c => isWordChar c

/-- Regex `\b`: the two adjacent positions differ in wordness. -/
def wordBoundaryAt (a b : Option Char) : Bool :=
  optWord a != optWord b

/-- Case-insensitive literal match of `ks` at the head of `t`, threading
the last consumed character (for the trailing `\b`). -/
def ciMatch : List Char → Option Char → List Char → Option (Option Char × List Char)
  | [], last, t => some (last, t)
  | _ :: _, _, [] => none
  | k :: ks, _, c :: t =>
    if lowerChar k = lowerChar c then ciMatch ks (some c) t else none

/-- Consume a maximal run of whitespace, threading the last character. -/
def dropWsRun : Option Char → List Char → Option Char × List Char
  | last, [] => (last, [])
  | last, c :: t => if isPyWs c then dropWsRun (some c) t else (last, c :: t)

/-- Match the parts of a keyword separated by `\s+` at the head of `t`. -/
def matchParts : List (List Char) → Option Char → List Char → Option (Option Char × List Char)
  | [], last, t => some (last, t)
  | [p], last, t => ciMatch p last t
  | p :: ps, last, t =>
    match ciMatch p last t with
    | none => none
    | some (_, t1) =>
      match t1 with
      | [] => none
      | c :: t2 =>
        if isPyWs c then
          let r := dropWsRun (some c) t2
          matchParts ps r.1 r.2
        else none

/-- The full pattern `\b part1 \s+ ... \s+ partN \b` matches at the
current position (previous character `prev`, remaining text `t`). -/
def kwHitAt (ps : List (List Char)) (prev : Option Char) (t : List Char) : Bool :=
  wordBoundaryAt prev t.head? &&
    (match matchParts ps prev t with
     | some (last, rest) => wordBoundaryAt last rest.head?
     | none => false)

/-- `re.search`: try every start position left to right. -/
def kwSearchAux (ps : List (List Char)) : Option Char → List Char → Bool
  | prev, [] => kwHitAt ps prev []
  | prev, c :: t => kwHitAt ps prev (c :: t) || kwSearchAux ps (some c) t

/-- Split on every single space character, keeping empty parts, exactly
as `re.escape(keyword).split(r"\ ")` does. -/
def splitSp : List Char → List (List Char)
  | [] => [[]]
  | c :: t =>
    if c = ' ' then [] :: splitSp t
    else
      match splitSp t with
      | p :: ps => (c :: p) :: ps
      | [] => [[c]]

/-- `_kw_in_text(keyword, text)` of `filter.py`. -/
def kwInText (keyword text : String) : Bool :=
  kwSearchAux (splitSp keyword.data) none text.data

/-! ## Job and preference records

A scraped job dict and a user preference row.  A field that may be absent
from the dict or `None` is an `Option`; preference collections that may
be absent or `None` are the empty list (Python treats both alike through
`x or []`). -/

/-- A job posting dict as it flows through the pipeline. -/
structure Job where
  id : String := ""
  title : String := ""
  description : Option String := none
  company : Option String := none
  url : Option String := none
  source : String := ""
  api_employment_type : Option String := none
  country : Option String := none
  municipality_code : Option String := none
  lan_code : Option String := none
  location_raw : Option String := none
  employment_type : Option String := none
deriving DecidableEq

/-- One user preference set from `user_preferences`. -/
structure Prefs where
  countries : List String := []
  sources_enabled : List String := []
  keywords_include : List String := []
  keywords_exclude : List String := []
  regions : List String := []
  municipalities : List String := []
  employment_types : List String := []
deriving DecidableEq

/-- Python `x or default` for an optional string (`None` and `""` are
falsy). -/
def strOr (o : Option String) (d : String) : String :=
  match o with
  | none => d
  | some s => if s = "" then d else s

/-- The searchable text `f"{job.get('title','')} {job.get('description','')}"`. -/
def jobText (job : Job) : String :=
  job.title ++ " " ++ job.description.getD ""

/-! ### The seven veto dimensions of `job_matches_user`, in source order.
Each `...Reject` is the failure condition of the corresponding
`return False` in the source. -/

/-- Dimension 1a: country.  Empty `countries` defaults to `["SE"]`. -/
def countryReject (job : Job) (prefs : Prefs) : Bool :=
  let countries := if prefs.countries.isEmpty then ["SE"] else prefs.countries
  let job_country := strOr job.country "SE"
  !countries.contains job_country

/-- Dimension 1b: source. -/
def sourceReject (job : Job) (prefs : Prefs) : Bool :=
  let sources := prefs.sources_enabled
  !sources.isEmpty && !sources.contains job.source

/-- Dimension 2: at least one include keyword must match. -/
def kwIncludeReject (job : Job) (prefs : Prefs) : Bool :=
  let kw_inc := prefs.keywords_include
  !kw_inc.isEmpty && !(kw_inc.any fun kw => kwInText kw (jobText job))

/-- Dimension 3: no exclude keyword may match. -/
def kwExcludeReject (job : Job) (prefs : Prefs) : Bool :=
  let kw_exc := prefs.keywords_exclude
  !kw_exc.isEmpty && (kw_exc.any fun kw => kwInText kw (jobText job))

/-- Dimension 4: region (län); an unknown (`None`) code never rejects. -/
def regionReject (job : Job) (prefs : Prefs) : Bool :=
  !prefs.regions.isEmpty &&
    (match job.lan_code with
     | some c => !prefs.regions.contains c
     | none => false)

/-- Dimension 5: municipality; an unknown code never rejects. -/
def municipalityReject (job : Job) (prefs : Prefs) : Bool :=
  !prefs.municipalities.isEmpty &&
    (match job.municipality_code with
     | some c => !prefs.municipalities.contains c
     | none => false)

/-- Dimension 6: employment type; an unknown type never rejects. -/
def employmentTypeReject (job : Job) (prefs : Prefs) : Bool :=
  !prefs.employment_types.isEmpty &&
    (match job.employment_type with
     | some et => !prefs.employment_types.contains et
     | none => false)

/-- `job_matches_user(job, prefs)` of `filter.py`: the short-circuiting
chain of the seven vetoes. -/
def job_matches_user (job : Job) (prefs : Prefs) : Bool :=
  if countryReject job prefs then false
  else if sourceReject job prefs then false
  else if kwIncludeReject job prefs then false
  else if kwExcludeReject job prefs then false
  else if regionReject job prefs then false
  else if municipalityReject job prefs then false
  else if employmentTypeReject job prefs then false
  else true

/-! ## Location parser (`location_parser.py`) -/

/-- One row of the `swedish_locations` gazetteer table. -/
structure GazRow where
  municipality_code : String
  municipality_name : String
  lan_code : String
  lan_name : String := ""
deriving DecidableEq

/-- The result dict of `parse_location`. -/
structure LocResult where
  municipality_code : Option String
  lan_code : Option String
  location_raw : Option String
deriving DecidableEq

/-- The all-`None` result. -/
def locNone : LocResult := ⟨none, none, none⟩

/-- `_ALIASES`: alternative spellings mapping to official names. -/
def ALIASES : List (String × String) :=
  [("gothenburg", "göteborg"), ("goeteborg", "göteborg"), ("malmo", "malmö"),
   ("umea", "umeå"), ("ostersund", "östersund"), ("gavle", "gävle"),
   ("vasteras", "västerås"), ("norrkoping", "norrköping"),
   ("linkoping", "linköping"), ("jonkoping", "jönköping"),
   ("sodertalje", "södertälje"), ("helsingborg", "helsingborg"),
   ("angelholm", "ängelholm"), ("hassleholm", "hässleholm"),
   ("ornskoldsvik", "örnsköldsvik"), ("lulea", "luleå"),
   ("sundsvall", "sundsvall"), ("boras", "borås"),
   ("karlskrona", "karlskrona")]

/-- Python dict assignment `d[k] = v`: overwrite in place, keeping the
insertion position of an existing key, else append. -/
def dictInsert (k : String) (v : GazRow) : List (String × GazRow) → List (String × GazRow)
  | [] => [(k, v)]
  | (k', v') :: rest => if k' = k then (k', v) :: rest else (k', v') :: dictInsert k v rest

/-- Python dict lookup `d.get(k)`. -/
def dictFind (d : List (String × GazRow)) (k : String) : Option GazRow :=
  (d.find? fun p => p.1 == k).map Prod.snd

/-- `_ensure_lookup`: index the gazetteer rows by lower-cased name, then
register each alias whose official name is present and whose own key is
not. -/
def buildLookup (rows : List GazRow) : List (String × GazRow) :=
  let base := rows.foldl (fun d row => dictInsert (strLower row.municipality_name) row d) []
  ALIASES.foldl
    (fun d p =>
      match dictFind d p.2 with
      | some row => if (dictFind d p.1).isNone then dictInsert p.1 row d else d
      | none => d)
    base

/-- The candidate loop of `parse_location`: try each name in order, and
on the first lookaround whole-word match build the result from the row
of that name, slicing `location_raw` out of the original-case text. -/
def locScan (lookup : List (String × GazRow)) (textLower textOrig : List Char) :
    List String → LocResult
  | [] => locNone
  | name :: rest =>
    match findSwWord name.data textLower with
    | some start =>
      match dictFind lookup name with
      | some row =>
        { municipality_code := some row.municipality_code
          lan_code := some row.lan_code
          location_raw := some ⟨(textOrig.drop start).take name.data.length⟩ }
      | none => locNone
    | none => locScan lookup textLower textOrig rest

/-- Stable insertion of a name into a list kept descending by length:
`x` goes in front of the first element whose length is at most the
length of `x`. -/
def insertLenDesc (x : String) : List String → List String
  | [] => [x]
  | y :: ys => if y.length ≤ x.length then x :: y :: ys else y :: insertLenDesc x ys

/-- Python `sorted(keys, key=len, reverse=True)`: stable sort of the
candidate names, longest first. -/
def sortLenDesc (l : List String) : List String :=
  l.foldr insertLenDesc []

/-- `parse_location(title, description)`, parameterised by the process
cache `_location_lookup` that `_ensure_lookup` built.  The combined text
is `(title or "") + " " + (description or "")`; when its lowercase form
strips to the empty string the function short-circuits to the all-`None`
result without iterating over the sorted candidates. -/
def parse_location (lookup : List (String × GazRow)) (title : String)
    (description : Option String) : LocResult :=
  if pyStrip (strLower (title ++ " " ++ description.getD "")) = "" then locNone
  else
    locScan lookup (strLower (title ++ " " ++ description.getD "")).data
      (title ++ " " ++ description.getD "").data
      (sortLenDesc (lookup.map Prod.fst))

/-! ## Enrichment (`main.py` and `config.py`) -/

/-- `SOURCE_COUNTRY` of `config.py`. -/
def SOURCE_COUNTRY : List (String × String) :=
  [("nigel_wright", "DK"), ("bonesvirik", "NO"), ("visindi", "NO")]

/-- `SOURCE_COUNTRY.get(source, "SE")`. -/
def sourceCountry (source : String) : String :=
  ((SOURCE_COUNTRY.find? fun p => p.1 == source).map Prod.snd).getD "SE"

/-- `enrich(job)` of `main.py`: tag the country from the static mapping,
fill the location fields from `parse_location`, pop the structured API
hint and fill `employment_type` from `parse_employment_type`. -/
def enrich (lookup : List (String × GazRow)) (job : Job) : Job :=
  let loc := parse_location lookup job.title job.description
  let api_et := job.api_employment_type
  { job with
    country := some (sourceCountry job.source)
    municipality_code := loc.municipality_code
    lan_code := loc.lan_code
    location_raw := loc.location_raw
    api_employment_type := none
    employment_type := parse_employment_type job.title job.description api_et }

/-- A two-entry gazetteer exercising longest-name-first resolution:
"Väsby" (dummy codes) and "Upplands Väsby" (its real SCB codes). -/
def vasbyGazetteer : List GazRow :=
  [{ municipality_code := "9999", municipality_name := "Väsby", lan_code := "99" },
   { municipality_code := "0114", municipality_name := "Upplands Väsby", lan_code := "01" }]

/-! ## Helper lemmas -/

/-- The short-circuiting veto chain of `job_matches_user` equals the
conjunction of the negated dimension vetoes. -/
theorem job_matches_user_eq (job : Job) (prefs : Prefs) :
    job_matches_user job prefs =
      (!countryReject job prefs && (!sourceReject job prefs &&
        (!kwIncludeReject job prefs && (!kwExcludeReject job prefs &&
          (!regionReject job prefs && (!municipalityReject job prefs &&
            !employmentTypeReject job prefs)))))) := by
  unfold job_matches_user
  split_ifs <;> simp_all

/-- The candidate loop either fails over every candidate, or returns the
codes of one row of the lookup and a raw text span. -/
theorem locScan_all_or_nothing (lookup : List (String × GazRow))
    (textLower textOrig : List Char) (cands : List String) :
    (∃ p ∈ lookup, ∃ raw,
      locScan lookup textLower textOrig cands =
        { municipality_code := some p.2.municipality_code,
          lan_code := some p.2.lan_code, location_raw := some raw }) ∨
    locScan lookup textLower textOrig cands = locNone := by
  induction cands with
  | nil => right; rfl
  | cons name rest ih =>
    unfold locScan
    cases hf : findSwWord name.data textLower with
    | none => simpa using ih
    | some start =>
      cases hd : dictFind lookup name with
      | none => right; rfl
      | some row =>
        left
        have hmem : (∃ k, (k, row) ∈ lookup) := by
          unfold dictFind at hd
          cases hfind : lookup.find? (fun p => p.1 == name) with
          | none => simp [hfind] at hd
          | some p =>
            obtain ⟨k, v⟩ := p
            have hv : v = row := by simpa [hfind] using hd
            subst hv
            exact ⟨k, List.mem_of_find?_eq_some hfind⟩
        obtain ⟨k, hk⟩ := hmem
        exact ⟨(k, row), hk, ⟨(textOrig.drop start).take name.data.length⟩, rfl⟩

/-- A string of whitespace strips to the empty string. -/
theorem pyStrip_of_all_ws (s : String) (h : s.data.all isPyWs) : pyStrip s = "" := by
  unfold pyStrip
  have h1 : s.data.dropWhile isPyWs = [] := by
    rw [List.dropWhile_eq_nil_iff]
    intro x hx
    exact List.all_eq_true.mp h x hx
  simp [h1]

/-- Lowercasing fixes whitespace characters. -/
theorem lowerChar_ws (c : Char) (h : isPyWs c = true) : lowerChar c = c := by
  simp [isPyWs] at h
  rcases h with rfl | rfl | rfl | rfl | rfl | rfl <;> decide

/-- Lowercasing a whitespace-only string keeps it whitespace-only. -/
theorem strLower_all_ws (s : String) (h : s.data.all isPyWs) :
    (strLower s).data.all isPyWs := by
  unfold strLower
  rw [List.all_eq_true] at h ⊢
  intro x hx
  replace hx : x ∈ s.data.map lowerChar := hx
  rw [List.mem_map] at hx
  obtain ⟨a, ha, rfl⟩ := hx
  rw [lowerChar_ws a (h a ha)]
  exact h a ha

/-- The two hint vocabularies are disjoint. -/
theorem perm_hint_not_interim (s : String)
    (h : s ∈ permanentHintTokens) : s ∉ interimHintTokens := by
  fin_cases h <;> decide

/-! ## Claims -/

/-- C1 (counterexample): with no API hint, title and description
`"interim permanent"` / absent, the combined lowercased text and the
title alone contain both an interim-signal and a permanent-signal
keyword, yet `parse_employment_type` returns `"interim"`, not the
unknown result `None` the claim predicts. -/
theorem claim_C1_counterexample :
    hasKeyword (strLower ("interim permanent" ++ " " ++ "")) INTERIM_KEYWORDS = true ∧
    hasKeyword (strLower ("interim permanent" ++ " " ++ "")) PERMANENT_KEYWORDS = true ∧
    hasKeyword (strLower "interim permanent") INTERIM_KEYWORDS = true ∧
    hasKeyword (strLower "interim permanent") PERMANENT_KEYWORDS = true ∧
    parse_employment_type "interim permanent" none none = some "interim" ∧
    parse_employment_type "interim permanent" none none ≠ none := by decide

/-- C1 (amended): when the combined lowercased text contains both an
interim-signal and a permanent-signal keyword, no API hint is
recognized, and the title alone also contains both, then
`parse_employment_type` returns `"interim"` — the interim title check
runs first and wins; unknown (`None`) results only when the title
contains neither signal. -/
theorem claim_C1 (title : String) (description : Option String) (api : Option String)
    (hhint : hintClass api = none)
    (htexti : hasKeyword (strLower (title ++ " " ++ description.getD "")) INTERIM_KEYWORDS = true)
    (htextp : hasKeyword (strLower (title ++ " " ++ description.getD "")) PERMANENT_KEYWORDS = true)
    (htitlei : hasKeyword (strLower title) INTERIM_KEYWORDS = true)
    (_htitlep : hasKeyword (strLower title) PERMANENT_KEYWORDS = true) :
    parse_employment_type title description api = some "interim" := by
  unfold parse_employment_type
  rw [hhint]
  simp [htexti, htextp, htitlei]

/-- C1 (witness): the amended claim at title `"interim heltid"`. -/
theorem claim_C1_witness :
    parse_employment_type "interim heltid" none none = some "interim" :=
  claim_C1 "interim heltid" none none rfl (by decide) (by decide) (by decide) (by decide)

/-- C2 (counterexample): a posting enriched from source `nigel_wright`
carries country `"DK"`; against a preference set whose `countries`
collection is empty it is rejected, and rejected on the country
dimension — the empty collection does not pass unconditionally. -/
theorem claim_C2_counterexample :
    ({} : Prefs).countries = [] ∧
    (enrich [] { source := "nigel_wright" }).country = some "DK" ∧
    countryReject (enrich [] { source := "nigel_wright" }) {} = true ∧
    job_matches_user (enrich [] { source := "nigel_wright" }) {} = false := by decide

/-- C2 (amended): when the `countries` collection of the preference set
is empty, `job_matches_user` behaves exactly as if `countries` were
`["SE"]` (the restrictive variant): a posting whose country (defaulting
to `"SE"`) is not `"SE"` is rejected. -/
theorem claim_C2 (job : Job) (prefs : Prefs) (h : prefs.countries = []) :
    job_matches_user job prefs = job_matches_user job { prefs with countries := ["SE"] } ∧
    (strOr job.country "SE" ≠ "SE" → job_matches_user job prefs = false) := by
  constructor
  · simp [job_matches_user, countryReject, sourceReject, kwIncludeReject, kwExcludeReject,
      regionReject, municipalityReject, employmentTypeReject, h]
  · intro hne
    have hrej : countryReject job prefs = true := by
      simp [countryReject, h, hne]
    simp [job_matches_user, hrej]

/-- C2 (witness): the amended claim at a posting with country `"DK"`
and an empty preference set. -/
theorem claim_C2_witness :
    job_matches_user { country := some "DK" } {} =
      job_matches_user { country := some "DK" } { countries := ["SE"] } ∧
    job_matches_user { country := some "DK" } {} = false :=
  ⟨(claim_C2 { country := some "DK" } {} rfl).1,
   (claim_C2 { country := some "DK" } {} rfl).2 (by decide)⟩

/-- C3: with non-empty `regions`, an unknown (`None`) `lan_code` passes
the region dimension (the preference is ignored), while a known code
outside `regions` rejects; the same unknown-passes policy holds for the
municipality and employment-type dimensions.  Concretely,
`regions=["01"]` with `lan_code=None` matches and with `lan_code="03"`
does not. -/
theorem claim_C3 (job : Job) (prefs : Prefs) :
    (job.lan_code = none →
      job_matches_user job prefs = job_matches_user job { prefs with regions := [] }) ∧
    (∀ c, job.lan_code = some c → prefs.regions ≠ [] → prefs.regions.contains c = false →
      job_matches_user job prefs = false) ∧
    (job.municipality_code = none →
      job_matches_user job prefs = job_matches_user job { prefs with municipalities := [] }) ∧
    (∀ c, job.municipality_code = some c → prefs.municipalities ≠ [] →
      prefs.municipalities.contains c = false → job_matches_user job prefs = false) ∧
    (job.employment_type = none →
      job_matches_user job prefs = job_matches_user job { prefs with employment_types := [] }) ∧
    (∀ c, job.employment_type = some c → prefs.employment_types ≠ [] →
      prefs.employment_types.contains c = false → job_matches_user job prefs = false) ∧
    job_matches_user { lan_code := none } { regions := ["01"] } = true ∧
    job_matches_user { lan_code := some "03" } { regions := ["01"] } = false := by
  refine ⟨?_, ?_, ?_, ?_, ?_, ?_, by decide, by decide⟩
  · intro hl
    simp [job_matches_user, countryReject, sourceReject, kwIncludeReject, kwExcludeReject,
      regionReject, municipalityReject, employmentTypeReject, hl]
  · intro c hl hne hc
    have hrej : regionReject job prefs = true := by
      simp [regionReject, hl, hne]
      simpa using hc
    simp [job_matches_user_eq, hrej]
  · intro hm
    simp [job_matches_user, countryReject, sourceReject, kwIncludeReject, kwExcludeReject,
      regionReject, municipalityReject, employmentTypeReject, hm]
  · intro c hm hne hc
    have hrej : municipalityReject job prefs = true := by
      simp [municipalityReject, hm, hne]
      simpa using hc
    simp [job_matches_user_eq, hrej]
  · intro he
    simp [job_matches_user, countryReject, sourceReject, kwIncludeReject, kwExcludeReject,
      regionReject, municipalityReject, employmentTypeReject, he]
  · intro c he hne hc
    have hrej : employmentTypeReject job prefs = true := by
      simp [employmentTypeReject, he, hne]
      simpa using hc
    simp [job_matches_user_eq, hrej]

/-- C3 (witness): the rejection and unknown-passes conjuncts applied at
concrete postings against `regions=["01"]`. -/
theorem claim_C3_witness :
    job_matches_user { lan_code := some "03" } { regions := ["01"] } = false ∧
    job_matches_user { lan_code := none } { regions := ["01"] } =
      job_matches_user { lan_code := none } {} :=
  ⟨(claim_C3 { lan_code := some "03" } { regions := ["01"] }).2.1 "03" rfl
      (by decide) (by decide),
   (claim_C3 { lan_code := none } { regions := ["01"] }).1 rfl⟩

/-- C4: with gazetteer entries "Väsby" and "Upplands Väsby",
`parse_location` resolves "Jobb i Upplands Väsby" to the codes of
"Upplands Väsby", not those of "Väsby", in either gazetteer row order —
candidates are tried longest name first and the first whole-word match
wins. -/
theorem claim_C4 :
    parse_location (buildLookup vasbyGazetteer) "Jobb i Upplands Väsby" none =
      { municipality_code := some "0114", lan_code := some "01",
        location_raw := some "Upplands Väsby" } ∧
    parse_location (buildLookup vasbyGazetteer.reverse) "Jobb i Upplands Väsby" none =
      { municipality_code := some "0114", lan_code := some "01",
        location_raw := some "Upplands Väsby" } := by decide

/-- C5: keyword matching in `job_matches_user` is whole-word and
case-insensitive — "VD" does not occur in "Landsbygdsavdelningen" (such
a posting is rejected under `keywords_include=["VD"]`) but occurs in
"Ny VD sökes" (such a posting passes) — and a multi-word phrase still
matches across a run of more than one whitespace character, though not
with no separation at all. -/
theorem claim_C5 :
    kwInText "VD" "Landsbygdsavdelningen" = false ∧
    kwInText "VD" "Ny VD sökes" = true ∧
    job_matches_user { title := "Landsbygdsavdelningen" } { keywords_include := ["VD"] } = false ∧
    job_matches_user { title := "Ny VD sökes" } { keywords_include := ["VD"] } = true ∧
    kwInText "Vice President" "En Vice  President i Lund" = true ∧
    kwInText "Vice President" "En VicePresident i Lund" = false := by decide

/-- C6: `parse_location` returns either all three of municipality code,
län code and raw span populated from a single gazetteer entry, or all
three `None`; and a whitespace-only combined text yields the all-`None`
short circuit. -/
theorem claim_C6 (lookup : List (String × GazRow)) (title : String)
    (description : Option String) :
    ((∃ p ∈ lookup, ∃ raw,
        parse_location lookup title description =
          { municipality_code := some p.2.municipality_code,
            lan_code := some p.2.lan_code, location_raw := some raw }) ∨
      parse_location lookup title description = locNone) ∧
    ((title ++ " " ++ description.getD "").data.all isPyWs →
      parse_location lookup title description = locNone) := by
  constructor
  · unfold parse_location
    split
    · right; rfl
    · exact locScan_all_or_nothing lookup _ _ _
  · intro hws
    unfold parse_location
    rw [pyStrip_of_all_ws _ (strLower_all_ws _ hws)]
    simp

/-- C6 (witness): the short-circuit conjunct at a whitespace-only title
over the Väsby gazetteer. -/
theorem claim_C6_witness :
    parse_location (buildLookup vasbyGazetteer) " \t " none = locNone :=
  (claim_C6 (buildLookup vasbyGazetteer) " \t " none).2 (by decide)

/-- C7: a present, recognized API employment-type hint always wins:
whatever the title and description, a hint normalizing into the interim
vocabulary yields `"interim"` and one normalizing into the permanent
vocabulary yields `"permanent"`. -/
theorem claim_C7 (title : String) (description : Option String) (h : String)
    (hne : h ≠ "") :
    (strLower (pyStrip h) ∈ interimHintTokens →
      parse_employment_type title description (some h) = some "interim") ∧
    (strLower (pyStrip h) ∈ permanentHintTokens →
      parse_employment_type title description (some h) = some "permanent") := by
  constructor
  · intro hc
    simp [parse_employment_type, hintClass, hne, hc]
  · intro hc
    simp [parse_employment_type, hintClass, hne, hc, perm_hint_not_interim _ hc]

/-- C7 (witness): hint `"tillsvidare"` overrides title "Interim CFO". -/
theorem claim_C7_witness :
    parse_employment_type "Interim CFO" none (some "tillsvidare") = some "permanent" :=
  (claim_C7 "Interim CFO" none "tillsvidare" (by decide)).2 (by decide)

/-- C8: a posting whose source is absent from `SOURCE_COUNTRY` is
enriched with country `"SE"`, and `job_matches_user` then rejects it for
any preference set with `countries=["DK"]`. -/
theorem claim_C8 (lookup : List (String × GazRow)) (job : Job) (prefs : Prefs)
    (habsent : SOURCE_COUNTRY.find? (fun p => p.1 == job.source) = none)
    (hdk : prefs.countries = ["DK"]) :
    (enrich lookup job).country = some "SE" ∧
    job_matches_user (enrich lookup job) prefs = false := by
  have hcountry : (enrich lookup job).country = some "SE" := by
    simp [enrich, sourceCountry, habsent]
  refine ⟨hcountry, ?_⟩
  have hrej : countryReject (enrich lookup job) prefs = true := by
    simp [countryReject, hdk, hcountry, strOr]
  simp [job_matches_user, hrej]

/-- C8 (witness): the source `"capa"` is not in the mapping. -/
theorem claim_C8_witness :
    (enrich [] { source := "capa" }).country = some "SE" ∧
    job_matches_user (enrich [] { source := "capa" }) { countries := ["DK"] } = false :=
  claim_C8 [] { source := "capa" } { countries := ["DK"] } (by decide) rfl

/-- C9: `enrich` preserves the identity fields id, title, description,
company, url and source, and sets exactly the enrichment fields, each a
pure function of the posting fields and the gazetteer lookup: country
from the static source mapping, the three location fields from
`parse_location`, and `employment_type` from `parse_employment_type`
applied to the popped API hint. -/
theorem claim_C9 (lookup : List (String × GazRow)) (job : Job) :
    (enrich lookup job).id = job.id ∧
    (enrich lookup job).title = job.title ∧
    (enrich lookup job).description = job.description ∧
    (enrich lookup job).company = job.company ∧
    (enrich lookup job).url = job.url ∧
    (enrich lookup job).source = job.source ∧
    (enrich lookup job).country = some (sourceCountry job.source) ∧
    (enrich lookup job).municipality_code =
      (parse_location lookup job.title job.description).municipality_code ∧
    (enrich lookup job).lan_code =
      (parse_location lookup job.title job.description).lan_code ∧
    (enrich lookup job).location_raw =
      (parse_location lookup job.title job.description).location_raw ∧
    (enrich lookup job).employment_type =
      parse_employment_type job.title job.description job.api_employment_type :=
  ⟨rfl, rfl, rfl, rfl, rfl, rfl, rfl, rfl, rfl, rfl, rfl⟩

/-- C10: a non-empty API hint whose trimmed lowercase form is in neither
hint vocabulary is silently ignored — classification proceeds exactly as
with no hint. -/
theorem claim_C10 (title : String) (description : Option String) (h : String)
    (hne : h ≠ "")
    (hi : strLower (pyStrip h) ∉ interimHintTokens)
    (hp : strLower (pyStrip h) ∉ permanentHintTokens) :
    parse_employment_type title description (some h) =
      parse_employment_type title description none := by
  simp [parse_employment_type, hintClass, hne, hi, hp]

/-- C10 (witness): the unrecognized hint `"projektanställning"`. -/
theorem claim_C10_witness :
    parse_employment_type "Interim CFO" none (some "projektanställning") =
      parse_employment_type "Interim CFO" none none :=
  claim_C10 "Interim CFO" none "projektanställning" (by decide) (by decide) (by decide)

end JobMonitor
